import Mathlib

/-!
Shallow embedding of the C-Classes FSM engine (src/src/fsm/fsm.c, src/include/fsm.h,
src/include/event.h).

Modelling choices:
* A state is a function pointer in C; here the identity of a handler is a value of an
  abstract type `σ`, and the behavior of every handler is supplied as an environment
  `Fsm_Handler σ : σ → Fsm σ → Event → Fsm σ × Fsm_Status` (the handler receives the
  machine by pointer and may mutate it, so it returns the updated machine plus its
  status).  A nullable handler pointer is `Option σ`.
* `RUNTIME_ASSERT` never returns on failure; engine entry points therefore return an
  `EngineResult`: `ok` (normal return) carrying the final machine, the loop counter
  `i` at exit and the trace of handler invocations; `fatal` carrying the machine as it
  was at the point of the failed assertion (`none` when the `me` pointer itself was
  null) and the trace so far; `crash` for undefined behavior (dereferencing a null
  `me->state` inside the loop body, which the C code does not guard).
* Every handler invocation is recorded in a trace as (handler identity, signal).
* `i` and `max_state_transitions` are `uint32_t` in C, so the cascade loop performs
  fewer than 2^32 iterations; the loop is modelled with fuel `gas32 = 2^32`, which is
  never exhausted for any C-representable machine.  Machine integers are modelled as
  `Nat` (the code performs no arithmetic on them that could overflow: it only
  increments `i`, which stays `≤ max_state_transitions < 2^32`).
-/

namespace CClasses

/-- Signal is int16_t in event.h; modelled as Int (no arithmetic is done on signals,
only comparisons, so no wrap-around can occur). -/
abbrev Signal := Int

/-- The base Event class of event.h: a single signal field. -/
structure Event where
  sig : Signal
deriving DecidableEq

/-- Reserved signal INIT_EVENT = -4 (event.h enum Reserved_Signals). -/
def INIT_EVENT : Signal := -4

/-- Reserved signal ENTRY_EVENT = -3 (event.h enum Reserved_Signals). -/
def ENTRY_EVENT : Signal := -3

/-- Reserved signal EXIT_EVENT = -2 (event.h enum Reserved_Signals). -/
def EXIT_EVENT : Signal := -2

/-- Reserved signal IDLE_EVENT = -1 (event.h enum Reserved_Signals). -/
def IDLE_EVENT : Signal := -1

/-- First user signal USER_SIG = 0 (event.h enum Reserved_Signals). -/
def USER_SIG : Signal := 0

/-- The status enumeration returned by every state handler (fsm.h Fsm_Status). -/
inductive Fsm_Status where
  | FSM_TRAN_STATUS
  | FSM_HANDLED_STATUS
  | FSM_IGNORED_STATUS
  | FSM_ERROR_STATUS
deriving DecidableEq

export Fsm_Status (FSM_TRAN_STATUS FSM_HANDLED_STATUS FSM_IGNORED_STATUS FSM_ERROR_STATUS)

/-- The base FSM class of fsm.h: a nullable current-state handler pointer and the
uint32_t bound on back-to-back transitions. -/
structure Fsm (σ : Type) where
  state : Option σ
  max_state_transitions : Nat
deriving DecidableEq

/-- The semantics of the application's state handlers: given the identity of the
handler being invoked, the machine and the event, produce the machine as the handler
leaves it and the returned status (fsm.h Fsm_Handler). -/
def Fsm_Handler (σ : Type) : Type := σ → Fsm σ → Event → Fsm σ × Fsm_Status

/-- A trace of handler invocations: (handler identity, signal delivered). -/
abbrev Trace (σ : Type) := List (σ × Signal)

/-- Internal event with ENTRY_EVENT signal (fsm.c line 86). -/
def Entry_Event : Event := ⟨ENTRY_EVENT⟩

/-- Internal event with EXIT_EVENT signal (fsm.c line 87). -/
def Exit_Event : Event := ⟨EXIT_EVENT⟩

/-- Internal event with INIT_EVENT signal (fsm.c line 88). -/
def Init_Event : Event := ⟨INIT_EVENT⟩

/-- Result of FSM_TRAN (fsm.h lines 210-215): on success the updated machine and the
returned status; `fatal` when the RUNTIME_ASSERT on the two pointers fails (the assert
runs before the state field is modified). -/
inductive TranResult (σ : Type) where
  | ok (m : Fsm σ) (status : Fsm_Status)
  | fatal
deriving DecidableEq

/-- FSM_TRAN (fsm.h lines 210-215): asserts both pointers non-null, then sets
`me->state = target` and returns FSM_TRAN_STATUS.  No other field is touched. -/
def FSM_TRAN {σ : Type} (me : Option (Fsm σ)) (target : Option σ) : TranResult σ :=
  match me, target with
  | some m, some t => .ok { m with state := some t } FSM_TRAN_STATUS
  | _, _ => .fatal

/-- Result of Fsm_Ctor (fsm.c lines 96-100). -/
inductive CtorResult (σ : Type) where
  | ok (m : Fsm σ)
  | fatal
deriving DecidableEq

/-- Fsm_Ctor (fsm.c lines 96-100): asserts `me`, `init_state_handler_0` and
`max_state_transitions_0` all non-null/non-zero, then executes
`me->state = init_state_handler_0;`.  NOTE: faithful to the source, the
`max_state_transitions` field of `*me` is NOT assigned; it keeps whatever value the
(uninitialized) memory held before the call. -/
def Fsm_Ctor {σ : Type} (me : Option (Fsm σ)) (init_state_handler_0 : Option σ)
    (max_state_transitions_0 : Nat) : CtorResult σ :=
  match me, init_state_handler_0 with
  | some m, some h =>
      if max_state_transitions_0 = 0 then .fatal
      else .ok { m with state := some h }
  | _, _ => .fatal

/-- Result of the Exit/Entry cascade loop shared by Fsm_Begin (fsm.c lines 132-145)
and Fsm_Dispatch (fsm.c lines 178-191): `exited` when the loop condition goes false
(carrying machine, status and loop counter `i` at exit), `fatal` when the in-loop
RUNTIME_ASSERT on the Exit status fails, `crash` on a null `me->state` dereference in
the loop body (undefined behavior in C) or fuel exhaustion (unreachable for uint32
bounds). -/
inductive LoopResult (σ : Type) where
  | exited (m : Fsm σ) (status : Fsm_Status) (iters : Nat) (trace : Trace σ)
  | fatal (m : Fsm σ) (trace : Trace σ)
  | crash (trace : Trace σ)
deriving DecidableEq

/-- The Exit/Entry cascade loop, identical in Fsm_Begin (fsm.c lines 132-145) and
Fsm_Dispatch (fsm.c lines 178-191):
`for (i = 0; (status == FSM_TRAN_STATUS && me->state && i < me->max_state_transitions); i++)`
with body: run Exit on `prev_state`, assert the result is neither FSM_TRAN_STATUS nor
FSM_ERROR_STATUS, then `prev_state = me->state` and run Entry on the new state.
The loop condition re-reads `me->state` and `me->max_state_transitions` each
iteration, as the C code does (handlers may mutate them through the `me` pointer). -/
def cascade {σ : Type} (env : Fsm_Handler σ) :
    Nat → Nat → σ → Fsm σ → Fsm_Status → Trace σ → LoopResult σ
  | 0, i, _, m, status, trace =>
      if status = FSM_TRAN_STATUS ∧ m.state.isSome ∧ i < m.max_state_transitions
      then .crash trace
      else .exited m status i trace
  | gas + 1, i, prev_state, m, status, trace =>
      if status = FSM_TRAN_STATUS ∧ m.state.isSome ∧ i < m.max_state_transitions then
        let r1 := env prev_state m Exit_Event
        let trace1 := trace ++ [(prev_state, EXIT_EVENT)]
        if r1.2 = FSM_TRAN_STATUS ∨ r1.2 = FSM_ERROR_STATUS then .fatal r1.1 trace1
        else
          match r1.1.state with
          | none => .crash trace1
          | some cur =>
            let r2 := env cur r1.1 Entry_Event
            cascade env gas (i + 1) cur r2.1 r2.2 (trace1 ++ [(cur, ENTRY_EVENT)])
      else .exited m status i trace

/-- Result of an engine entry point (Fsm_Begin / Fsm_Dispatch).  `ok` is a normal
return; `fatal` is a failed RUNTIME_ASSERT, carrying the machine as it was at that
point (`none` when the `me` pointer itself was null); `crash` is undefined behavior. -/
inductive EngineResult (σ : Type) where
  | ok (m : Fsm σ) (iters : Nat) (trace : Trace σ)
  | fatal (m : Option (Fsm σ)) (trace : Trace σ)
  | crash (trace : Trace σ)
deriving DecidableEq

/-- The trace of an engine result. -/
def EngineResult.tr {σ : Type} : EngineResult σ → Trace σ
  | .ok _ _ t => t
  | .fatal _ t => t
  | .crash t => t

/-- The trace of a loop result. -/
def LoopResult.tr {σ : Type} : LoopResult σ → Trace σ
  | .exited _ _ _ t => t
  | .fatal _ t => t
  | .crash t => t

/-- Fuel for the cascade loop: `i` and `max_state_transitions` are uint32_t, so the
C loop performs fewer than 2^32 iterations; this fuel is never exhausted for any
machine representable in the C code. -/
def gas32 : Nat := 2 ^ 32

/-- The final RUNTIME_ASSERT after the cascade loop, identical in Fsm_Begin
(fsm.c line 148) and Fsm_Dispatch (fsm.c line 194):
`RUNTIME_ASSERT(((me->state) && (i <= me->max_state_transitions) && (status != FSM_ERROR_STATUS)))`. -/
def finish {σ : Type} (res : LoopResult σ) : EngineResult σ :=
  match res with
  | .exited m status i trace =>
      if m.state.isSome ∧ i ≤ m.max_state_transitions ∧ status ≠ FSM_ERROR_STATUS
      then .ok m i trace
      else .fatal (some m) trace
  | .fatal m trace => .fatal (some m) trace
  | .crash trace => .crash trace

/-- Fsm_Begin (fsm.c lines 103-149): assert `me` non-null, assert
`me->max_state_transitions` and `me->state` non-zero/non-null, run the Init handler,
assert it returned FSM_TRAN_STATUS and left `me->state` non-null, run Entry on the
state transitioned into, run the cascade loop, then the final assertion. -/
def Fsm_Begin {σ : Type} (env : Fsm_Handler σ) (me : Option (Fsm σ)) : EngineResult σ :=
  match me with
  | none => .fatal none []
  | some m =>
    match m.state with
    | none => .fatal (some m) []
    | some s0 =>
      if m.max_state_transitions = 0 then .fatal (some m) []
      else
        let r1 := env s0 m Init_Event
        let trace1 : Trace σ := [(s0, INIT_EVENT)]
        match r1.1.state with
        | none => .fatal (some r1.1) trace1
        | some prev_state =>
          if r1.2 = FSM_TRAN_STATUS then
            let r2 := env prev_state r1.1 Entry_Event
            finish (cascade env gas32 0 prev_state r2.1 r2.2
              (trace1 ++ [(prev_state, ENTRY_EVENT)]))
          else .fatal (some r1.1) trace1

/-- Fsm_Dispatch (fsm.c lines 152-195): assert `me` and `e` non-null, assert
`me->max_state_transitions`, `me->state` and `e->sig >= USER_SIG`, remember
`prev_state = me->state`, invoke the current state handler with the event, run the
cascade loop, then the final assertion. -/
def Fsm_Dispatch {σ : Type} (env : Fsm_Handler σ) (me : Option (Fsm σ))
    (e : Option Event) : EngineResult σ :=
  match me, e with
  | none, _ => .fatal none []
  | some m, none => .fatal (some m) []
  | some m, some ev =>
    match m.state with
    | none => .fatal (some m) []
    | some s0 =>
      if m.max_state_transitions ≠ 0 ∧ USER_SIG ≤ ev.sig then
        let r1 := env s0 m ev
        finish (cascade env gas32 0 s0 r1.1 r1.2 [(s0, ev.sig)])
      else .fatal (some m) []

/-- A chain environment over handler identities 0, 1, 2, ...: every handler answers
Exit with FSM_HANDLED_STATUS; handler `s` answers Entry by transitioning to `s + 1`
while `s < 2` (via FSM_TRAN semantics: set state, return FSM_TRAN_STATUS) and with
FSM_HANDLED_STATUS once `s = 2`; any user signal makes handler `s` transition to
`s + 1`. -/
def chainEnv : Fsm_Handler Nat := fun s m e =>
  if e.sig = EXIT_EVENT then (m, FSM_HANDLED_STATUS)
  else if e.sig = ENTRY_EVENT then
    if s < 2 then ({ m with state := some (s + 1) }, FSM_TRAN_STATUS)
    else (m, FSM_HANDLED_STATUS)
  else ({ m with state := some (s + 1) }, FSM_TRAN_STATUS)

/-- An environment whose handler 0 reacts to the Init event by transitioning to
itself (a legal single call to FSM_TRAN with target = the initial handler) and
answers every other event with FSM_HANDLED_STATUS. -/
def selfEnv : Fsm_Handler Nat := fun _ m e =>
  if e.sig = INIT_EVENT then ({ m with state := some 0 }, FSM_TRAN_STATUS)
  else (m, FSM_HANDLED_STATUS)

/-- An environment whose handler 0 reacts to the Init event by transitioning to
handler 1, and every handler answers every other event with FSM_HANDLED_STATUS. -/
def toOneEnv : Fsm_Handler Nat := fun _ m e =>
  if e.sig = INIT_EVENT then ({ m with state := some 1 }, FSM_TRAN_STATUS)
  else (m, FSM_HANDLED_STATUS)

/-- An environment in which every handler returns FSM_ERROR_STATUS and leaves the
machine untouched. -/
def errEnv : Fsm_Handler Nat := fun _ m _ => (m, FSM_ERROR_STATUS)

/-- An environment in which every handler returns FSM_HANDLED_STATUS and leaves the
machine untouched. -/
def idleEnv : Fsm_Handler Nat := fun _ m _ => (m, FSM_HANDLED_STATUS)

/-- An environment in which every handler returns FSM_TRAN_STATUS and leaves the
machine untouched (so an Exit invocation illegally reports a transition). -/
def exitTranEnv : Fsm_Handler Nat := fun _ m _ => (m, FSM_TRAN_STATUS)

/- ------------------------------------------------------------------------ -/
/- Helper lemmas                                                             -/
/- ------------------------------------------------------------------------ -/

theorem cascade_not_tran {σ : Type} (env : Fsm_Handler σ) (gas i : Nat) (p : σ)
    (m : Fsm σ) (st : Fsm_Status) (tr : Trace σ) (h : st ≠ FSM_TRAN_STATUS) :
    cascade env gas i p m st tr = .exited m st i tr := by
  cases gas with
  | zero => simp only [cascade]; rw [if_neg (by simp [h])]
  | succ g => simp only [cascade]; rw [if_neg (by simp [h])]

theorem finish_tr {σ : Type} (res : LoopResult σ) :
    (finish res).tr = res.tr := by
  cases res with
  | exited m status i trace =>
      simp only [finish, LoopResult.tr]
      split <;> simp [EngineResult.tr]
  | fatal m trace => rfl
  | crash trace => rfl

theorem cascade_tr_extend {σ : Type} (env : Fsm_Handler σ) :
    ∀ (gas i : Nat) (p : σ) (m : Fsm σ) (st : Fsm_Status) (tr : Trace σ),
      ∃ t2, (cascade env gas i p m st tr).tr = tr ++ t2 := by
  intro gas
  induction gas with
  | zero =>
      intro i p m st tr
      simp only [cascade]
      split
      · exact ⟨[], by simp [LoopResult.tr]⟩
      · exact ⟨[], by simp [LoopResult.tr]⟩
  | succ g ih =>
      intro i p m st tr
      simp only [cascade]
      split
      · split
        · exact ⟨[(p, EXIT_EVENT)], by simp [LoopResult.tr]⟩
        · split
          · exact ⟨[(p, EXIT_EVENT)], by simp [LoopResult.tr]⟩
          · rename_i cur hcur
            obtain ⟨t2, ht2⟩ := ih (i + 1) cur _ _ (tr ++ [(p, EXIT_EVENT)] ++ [(cur, ENTRY_EVENT)])
            exact ⟨[(p, EXIT_EVENT)] ++ [(cur, ENTRY_EVENT)] ++ t2, by
              rw [ht2]; simp⟩
      · exact ⟨[], by simp [LoopResult.tr]⟩

/- ------------------------------------------------------------------------ -/
/- Claim theorems                                                            -/
/- ------------------------------------------------------------------------ -/

/-- C1: the claim states that Fsm_Ctor stores the bound argument in the machine's
max_state_transitions field.  The source (fsm.c lines 96-100) only asserts the
argument non-zero and assigns the state field; the max_state_transitions field is
never written.  At the concrete input: a machine whose (uninitialized)
max_state_transitions field holds 7, a non-null handler 0 and bound 3, the
constructor returns with state = handler 0 but max_state_transitions still 7 ≠ 3. -/
theorem C1_ctor_does_not_store_bound :
    Fsm_Ctor (some (⟨none, 7⟩ : Fsm Nat)) (some 0) 3 = .ok ⟨some 0, 7⟩ ∧
    (⟨some 0, 7⟩ : Fsm Nat).max_state_transitions ≠ 3 := by decide

/-- C2: the claim states that a chain of k = max_state_transitions + 1 back-to-back
transitions makes Fsm_Dispatch take the fatal assertion path.  Concrete run refuting
this on the code: machine in state 0 with max_state_transitions = 1; dispatching
signal 0 makes handler 0 transition to 1 (transition 1) and Entry(1) transitions to 2
(transition 2 = max + 1).  The loop stops with i = 1 because i < max fails, and the
final assertion (fsm.c line 194) checks i <= max, which holds (i can never exceed max
at loop exit), so Fsm_Dispatch returns normally — the fatal path is not invoked, and
Entry(2) is never delivered (trace ends at (1, ENTRY_EVENT)). -/
theorem C2_bound_overrun_not_fatal :
    Fsm_Dispatch chainEnv (some ⟨some 0, 1⟩) (some ⟨0⟩) =
      .ok ⟨some 2, 1⟩ 1 [(0, 0), (0, EXIT_EVENT), (1, ENTRY_EVENT)] := by decide

/-- C3 counterexample: the claim states that whenever the initial handler performs
exactly one transition, Fsm_Begin leaves the state distinct from the initial handler.
With selfEnv, the initial handler 0 performs exactly one transition — to itself
(FSM_TRAN with target 0, a non-null handler; fsm.c line 125 only asserts
FSM_TRAN_STATUS and a non-null state, not distinctness) — and its Entry invocation
returns FSM_HANDLED_STATUS.  Fsm_Begin completes normally and the final state is
handler 0, i.e. exactly the initial handler, not distinct from it. -/
theorem C3_self_transition_counterexample :
    Fsm_Begin selfEnv (some ⟨some 0, 3⟩) =
      .ok ⟨some 0, 3⟩ 0 [(0, INIT_EVENT), (0, ENTRY_EVENT)] ∧
    (⟨some 0, 3⟩ : Fsm Nat).state = some 0 := by decide

/-- C3 (amended): for every machine with a non-null initial handler h and non-zero
bound, whenever the initial handler performs exactly one transition — it answers the
Init event with FSM_TRAN_STATUS having set the state to a non-null target t, and t's
Entry invocation returns FSM_HANDLED_STATUS or FSM_IGNORED_STATUS without modifying
the state — Fsm_Begin returns normally leaving the state non-null and equal to t;
the state is distinct from the initial handler whenever t differs from h. -/
theorem C3_begin_single_transition {σ : Type} (env : Fsm_Handler σ) (m m1 m2 : Fsm σ)
    (h t : σ) (st2 : Fsm_Status)
    (hstate : m.state = some h) (hmax : m.max_state_transitions ≠ 0)
    (hinit : env h m Init_Event = (m1, FSM_TRAN_STATUS))
    (htgt : m1.state = some t)
    (hentry : env t m1 Entry_Event = (m2, st2))
    (hst2 : st2 = FSM_HANDLED_STATUS ∨ st2 = FSM_IGNORED_STATUS)
    (hframe : m2.state = some t) :
    Fsm_Begin env (some m) = .ok m2 0 [(h, INIT_EVENT), (t, ENTRY_EVENT)] ∧
    m2.state = some t ∧ (t ≠ h → m2.state ≠ some h) := by
  have hnt : st2 ≠ FSM_TRAN_STATUS := by rcases hst2 with h2 | h2 <;> simp [h2]
  have hne : st2 ≠ FSM_ERROR_STATUS := by rcases hst2 with h2 | h2 <;> simp [h2]
  refine ⟨?_, hframe, ?_⟩
  · simp only [Fsm_Begin, hstate]
    rw [if_neg hmax]
    simp only [hinit, htgt, hentry]
    rw [if_pos trivial]
    rw [cascade_not_tran _ _ _ _ _ _ _ hnt]
    simp only [finish]
    rw [if_pos ⟨by simp [hframe], by simp, hne⟩]
    simp
  · intro hne0 hcontra
    rw [hframe] at hcontra
    exact hne0 (Option.some.injEq t h ▸ hcontra)

/-- C3 witness: with toOneEnv the initial handler 0 performs exactly one transition,
to handler 1, whose Entry invocation returns FSM_HANDLED_STATUS; Fsm_Begin completes
with state = handler 1, distinct from the initial handler 0. -/
theorem C3_witness :
    Fsm_Begin toOneEnv (some ⟨some 0, 3⟩) =
      .ok ⟨some 1, 3⟩ 0 [(0, INIT_EVENT), (1, ENTRY_EVENT)] ∧
    (⟨some 1, 3⟩ : Fsm Nat).state = some 1 ∧
    ((1 : Nat) ≠ 0 → (⟨some 1, 3⟩ : Fsm Nat).state ≠ some 0) :=
  C3_begin_single_transition toOneEnv ⟨some 0, 3⟩ ⟨some 1, 3⟩ ⟨some 1, 3⟩ 0 1
    FSM_HANDLED_STATUS rfl (by decide) (by decide) rfl (by decide) (Or.inl rfl) rfl

/-- C4: for every initialized machine dispatching a non-reserved event, if the
current state handler returns FSM_ERROR_STATUS, Fsm_Dispatch takes the fatal
assertion path (fsm.c line 194: status != FSM_ERROR_STATUS fails) and the machine at
the fatal point is exactly the machine as the handler left it — the engine performs
no further mutation after the call (the trace also shows no further handler ran). -/
theorem C4_error_status_fatal {σ : Type} (env : Fsm_Handler σ) (m m1 : Fsm σ) (s : σ)
    (ev : Event) (hstate : m.state = some s) (hmax : m.max_state_transitions ≠ 0)
    (hsig : USER_SIG ≤ ev.sig) (hcall : env s m ev = (m1, FSM_ERROR_STATUS)) :
    Fsm_Dispatch env (some m) (some ev) = .fatal (some m1) [(s, ev.sig)] := by
  simp only [Fsm_Dispatch, hstate]
  rw [if_pos ⟨hmax, hsig⟩]
  simp only [hcall]
  rw [cascade_not_tran _ _ _ _ _ _ _ (by simp)]
  simp [finish]

/-- C4 witness: with errEnv a handler for state 0 answers signal 5 with
FSM_ERROR_STATUS; the dispatch takes the fatal path with the machine untouched and
only the one invocation in the trace. -/
theorem C4_witness :
    Fsm_Dispatch errEnv (some ⟨some 0, 1⟩) (some ⟨5⟩) =
      .fatal (some ⟨some 0, 1⟩) [(0, 5)] :=
  C4_error_status_fatal errEnv ⟨some 0, 1⟩ ⟨some 0, 1⟩ 0 ⟨5⟩ rfl (by decide) (by decide) rfl

/-- C5: dispatching any event whose signal is below USER_SIG = 0 (all reserved
signals INIT_EVENT, ENTRY_EVENT, EXIT_EVENT, IDLE_EVENT are negative) makes
Fsm_Dispatch take the fatal assertion path (fsm.c line 171) with an empty invocation
trace — no user state handler is ever invoked. -/
theorem C5_reserved_signal_fatal {σ : Type} (env : Fsm_Handler σ) (m : Fsm σ)
    (ev : Event) (hsig : ev.sig < USER_SIG) :
    Fsm_Dispatch env (some m) (some ev) = .fatal (some m) [] := by
  simp only [Fsm_Dispatch]
  cases hms : m.state with
  | none => rfl
  | some s0 =>
      dsimp only
      rw [if_neg]
      intro hc
      exact absurd hc.2 (not_le.mpr hsig)

/-- C5 witness: dispatching the reserved IDLE_EVENT signal (-1) to an initialized
machine takes the fatal path with an empty trace — no handler ran. -/
theorem C5_witness :
    Fsm_Dispatch idleEnv (some ⟨some 0, 1⟩) (some ⟨IDLE_EVENT⟩) =
      .fatal (some ⟨some 0, 1⟩) [] :=
  C5_reserved_signal_fatal idleEnv ⟨some 0, 1⟩ ⟨IDLE_EVENT⟩ (by decide)

/-- C6: in any iteration of the Exit/Entry cascade loop (the loop shared verbatim by
Fsm_Begin, fsm.c lines 132-145, and Fsm_Dispatch, fsm.c lines 178-191), when the
loop is entered (status FSM_TRAN_STATUS, non-null state, i below the bound) and the
previous state's handler answers the Exit event with FSM_TRAN_STATUS or
FSM_ERROR_STATUS, the in-loop RUNTIME_ASSERT fails — the fatal path is taken with
the Exit invocation as the last trace entry; when the Exit invocation instead
returns FSM_HANDLED_STATUS or FSM_IGNORED_STATUS the cascade continues with the
Entry invocation of the new current state. -/
theorem C6_exit_status_protocol {σ : Type} (env : Fsm_Handler σ) (gas i : Nat)
    (p c : σ) (m m1 : Fsm σ) (st1 : Fsm_Status) (tr : Trace σ)
    (hsome : m.state = some c) (hi : i < m.max_state_transitions)
    (hexit : env p m Exit_Event = (m1, st1)) :
    (st1 = FSM_TRAN_STATUS ∨ st1 = FSM_ERROR_STATUS →
      cascade env (gas + 1) i p m FSM_TRAN_STATUS tr =
        .fatal m1 (tr ++ [(p, EXIT_EVENT)])) ∧
    (st1 = FSM_HANDLED_STATUS ∨ st1 = FSM_IGNORED_STATUS →
      ∀ c1, m1.state = some c1 →
        cascade env (gas + 1) i p m FSM_TRAN_STATUS tr =
          cascade env gas (i + 1) c1 (env c1 m1 Entry_Event).1 (env c1 m1 Entry_Event).2
            (tr ++ [(p, EXIT_EVENT), (c1, ENTRY_EVENT)])) := by
  constructor
  · intro hbad
    simp only [cascade, hexit]
    rw [if_pos ⟨trivial, by simp [hsome], hi⟩]
    rw [if_pos hbad]
  · intro hgood c1 hc1
    have hng : ¬(st1 = FSM_TRAN_STATUS ∨ st1 = FSM_ERROR_STATUS) := by
      rcases hgood with h2 | h2 <;> simp [h2]
    simp only [cascade, hexit, hc1]
    rw [if_pos ⟨trivial, by simp [hsome], hi⟩]
    rw [if_neg hng]
    simp

/-- C6 witness: with exitTranEnv, an Exit invocation reports FSM_TRAN_STATUS, so one
cascade iteration at i = 0 with bound 1 takes the fatal path. -/
theorem C6_witness :
    cascade exitTranEnv 1 0 0 ⟨some 0, 1⟩ FSM_TRAN_STATUS [] =
      .fatal ⟨some 0, 1⟩ [(0, EXIT_EVENT)] :=
  (C6_exit_status_protocol exitTranEnv 0 0 0 0 ⟨some 0, 1⟩ ⟨some 0, 1⟩ FSM_TRAN_STATUS
    [] rfl (by decide) rfl).1 (Or.inl rfl)

/-- C7: Fsm_Begin's first handler invocation is the stored initial handler with the
Init event (the trace starts with (h, INIT_EVENT)), and unless that invocation
returns FSM_TRAN_STATUS with a non-null state afterward, the RUNTIME_ASSERT at
fsm.c line 125 fails: Fsm_Begin takes the fatal path with the machine exactly as the
Init invocation left it and no further handler invoked. -/
theorem C7_begin_init_protocol {σ : Type} (env : Fsm_Handler σ) (m m1 : Fsm σ)
    (h : σ) (st1 : Fsm_Status)
    (hstate : m.state = some h) (hmax : m.max_state_transitions ≠ 0)
    (hinit : env h m Init_Event = (m1, st1)) :
    (∃ rest, (Fsm_Begin env (some m)).tr = (h, INIT_EVENT) :: rest) ∧
    ((st1 ≠ FSM_TRAN_STATUS ∨ m1.state = none) →
      Fsm_Begin env (some m) = .fatal (some m1) [(h, INIT_EVENT)]) := by
  simp only [Fsm_Begin, hstate, hinit]
  rw [if_neg hmax]
  cases hm1 : m1.state with
  | none =>
      exact ⟨⟨[], rfl⟩, fun _ => rfl⟩
  | some prev =>
      dsimp only
      by_cases h2 : st1 = FSM_TRAN_STATUS
      · rw [if_pos h2]
        constructor
        · obtain ⟨t2, ht2⟩ := cascade_tr_extend env gas32 0 prev
            (env prev m1 Entry_Event).1 (env prev m1 Entry_Event).2
            ([(h, INIT_EVENT)] ++ [(prev, ENTRY_EVENT)])
          exact ⟨(prev, ENTRY_EVENT) :: t2, by rw [finish_tr, ht2]; simp⟩
        · intro hbad
          rcases hbad with hbad | hbad
          · exact absurd h2 hbad
          · simp at hbad
      · rw [if_neg h2]
        exact ⟨⟨[], rfl⟩, fun _ => rfl⟩

/-- C7 witness: with idleEnv the Init invocation returns FSM_HANDLED_STATUS, not
FSM_TRAN_STATUS, so Fsm_Begin takes the fatal path right after the single Init
invocation. -/
theorem C7_witness :
    (∃ rest, (Fsm_Begin idleEnv (some ⟨some 0, 1⟩)).tr = (0, INIT_EVENT) :: rest) ∧
    Fsm_Begin idleEnv (some ⟨some 0, 1⟩) = .fatal (some ⟨some 0, 1⟩) [(0, INIT_EVENT)] := by
  have H := C7_begin_init_protocol idleEnv ⟨some 0, 1⟩ ⟨some 0, 1⟩ 0 FSM_HANDLED_STATUS
    rfl (by decide) rfl
  exact ⟨H.1, H.2 (Or.inl (by decide))⟩

/-- C8: dispatching a non-reserved event to a machine whose current handler answers
with FSM_HANDLED_STATUS or FSM_IGNORED_STATUS without mutating the state field makes
Fsm_Dispatch return normally with the state unchanged, zero cascade iterations, and
a trace containing only the dispatched invocation — no Exit or Entry event is
delivered to any handler. -/
theorem C8_handled_ignored_frame {σ : Type} (env : Fsm_Handler σ) (m m1 : Fsm σ)
    (s : σ) (ev : Event) (st : Fsm_Status)
    (hstate : m.state = some s) (hmax : m.max_state_transitions ≠ 0)
    (hsig : USER_SIG ≤ ev.sig) (hcall : env s m ev = (m1, st))
    (hst : st = FSM_HANDLED_STATUS ∨ st = FSM_IGNORED_STATUS)
    (hframe : m1.state = m.state) :
    Fsm_Dispatch env (some m) (some ev) = .ok m1 0 [(s, ev.sig)] ∧
    m1.state = some s := by
  have hnt : st ≠ FSM_TRAN_STATUS := by rcases hst with h2 | h2 <;> simp [h2]
  have hne : st ≠ FSM_ERROR_STATUS := by rcases hst with h2 | h2 <;> simp [h2]
  refine ⟨?_, by rw [hframe, hstate]⟩
  simp only [Fsm_Dispatch, hstate]
  rw [if_pos ⟨hmax, hsig⟩]
  simp only [hcall]
  rw [cascade_not_tran _ _ _ _ _ _ _ hnt]
  simp only [finish]
  rw [if_pos ⟨by simp [hframe, hstate], by simp, hne⟩]

/-- C8 witness: with idleEnv every handler returns FSM_HANDLED_STATUS and leaves the
machine untouched; dispatching signal 7 returns normally with the state unchanged
and only the dispatched invocation in the trace. -/
theorem C8_witness :
    Fsm_Dispatch idleEnv (some ⟨some 0, 1⟩) (some ⟨7⟩) = .ok ⟨some 0, 1⟩ 0 [(0, 7)] ∧
    (⟨some 0, 1⟩ : Fsm Nat).state = some 0 :=
  C8_handled_ignored_frame idleEnv ⟨some 0, 1⟩ ⟨some 0, 1⟩ 0 ⟨7⟩ FSM_HANDLED_STATUS
    rfl (by decide) (by decide) rfl (Or.inl rfl) rfl

/-- C9: the scenario of spec §8: machine in state A = 0 with bound 3; dispatching
signal 0 makes A transition to B = 1, Entry(B) immediately transitions to C = 2, and
Entry(C) returns FSM_HANDLED_STATUS.  The full invocation sequence is the dispatched
event to A followed by exactly Exit(A), Entry(B), Exit(B), Entry(C) in that order
(trace entries with the reserved EXIT_EVENT/ENTRY_EVENT signals), the dispatch
completes normally with state C, and the loop counter at exit is 2 — two cascade
iterations within the bound of 3. -/
theorem C9_two_chained_transitions :
    Fsm_Dispatch chainEnv (some ⟨some 0, 3⟩) (some ⟨0⟩) =
      .ok ⟨some 2, 3⟩ 2
        [(0, 0), (0, EXIT_EVENT), (1, ENTRY_EVENT), (1, EXIT_EVENT), (2, ENTRY_EVENT)] := by
  decide

/-- C10: FSM_TRAN with non-null machine and non-null target sets the machine's state
field to the target, changes no other field (max_state_transitions is preserved) and
returns FSM_TRAN_STATUS; when the machine or the target is null the RUNTIME_ASSERT
in fsm.h line 212 fails before the state field is modified — no updated machine is
produced. -/
theorem C10_fsm_tran_contract {σ : Type} (m : Fsm σ) (t : σ) (me : Option (Fsm σ))
    (tg : Option σ) (hnull : me = none ∨ tg = none) :
    FSM_TRAN (some m) (some t) =
      .ok ⟨some t, m.max_state_transitions⟩ FSM_TRAN_STATUS ∧
    FSM_TRAN me tg = .fatal := by
  refine ⟨rfl, ?_⟩
  rcases hnull with h | h
  · subst h; rfl
  · subst h; cases me <;> rfl

/-- C10 witness: FSM_TRAN on a concrete machine with handler target 0 sets the state
and preserves max_state_transitions; FSM_TRAN on a null machine and null target is
fatal. -/
theorem C10_witness :
    FSM_TRAN (some (⟨none, 5⟩ : Fsm Nat)) (some 0) = .ok ⟨some 0, 5⟩ FSM_TRAN_STATUS ∧
    FSM_TRAN (none : Option (Fsm Nat)) (none : Option Nat) = .fatal :=
  C10_fsm_tran_contract ⟨none, 5⟩ 0 none none (Or.inl rfl)

end CClasses
